import Mathlib

/-!
# Verification of the RAG starter kit pipeline

A shallow embedding of the retrieval-augmented-generation pipeline
(`ingest.py`, `app.py`, `config.py`) into Lean 4, together with proofs of
the specified properties of chunking, ingestion, retrieval, summarization
and answer generation.

Python strings are modelled as `List Char` (Python `len` counts code
points, as does `List.length`).  Remote calls (OpenAI embeddings /
completions, Supabase queries and inserts) are modelled as oracle values
of type `Except String α`: `.error msg` stands for the remote call
raising an exception whose string representation is `msg`, and `.ok v`
for a successful response.  Floating-point similarity scores are
modelled as rationals.
-/

set_option autoImplicit false

namespace RagKit

/-! ## Python string primitives -/

/-- Python `str` whitespace for `str.strip()`: space, tab, newline,
carriage return, vertical tab, form feed. -/
def isPyWhitespace (c : Char) : Bool :=
  c = ' ' || c = '\t' || c = '\n' || c = '\r' || c = '\x0b' || c = '\x0c'

/-- Python `s.strip()` on a list of characters. -/
def pyStrip (l : List Char) : List Char :=
  ((l.dropWhile isPyWhitespace).reverse.dropWhile isPyWhitespace).reverse

/-- `startsWithChars needle hay`: `hay` begins with `needle`. -/
def startsWithChars : List Char → List Char → Bool
  | [], _ => true
  | _ :: _, [] => false
  | a :: as, b :: bs => a = b && startsWithChars as bs

/-- `hasSubChars needle hay`: Python `needle in hay` substring test. -/
def hasSubChars (needle : List Char) : List Char → Bool
  | [] => startsWithChars needle []
  | c :: rest => startsWithChars needle (c :: rest) || hasSubChars needle rest

/-- Python `needle in hay` on strings. -/
def containsSub (needle hay : String) : Bool :=
  hasSubChars needle.toList hay.toList

/-- Python `s.lower()` (all error texts matched in the source are
ASCII, where Python `lower` and `Char.toLower` agree). -/
def pyLower (s : String) : String :=
  ⟨s.toList.map Char.toLower⟩

/-- Python `text.split("\n\n")`: split on leftmost non-overlapping
occurrences of a double newline.  `acc` is the current piece, kept in
order. -/
def splitParas : List Char → List Char → List (List Char)
  | [], acc => [acc]
  | '\n' :: '\n' :: rest, acc => acc :: splitParas rest []
  | c :: rest, acc => splitParas rest (acc ++ [c])

/-- Python `truncated.rfind(".")`: index of the last `'.'`, if any. -/
def rfindDot (l : List Char) : Option Nat :=
  match l.reverse.findIdx? (fun c => c = '.') with
  | some i => some (l.length - 1 - i)
  | none => none

/-! ## Configuration (`config.py`, repository root)

`ingest.py` and `app.py` both do `from config import ...`, which resolves
to the `config.py` sitting next to them at the repository root.  Values
are the defaults taken when no environment override is set.  The
repository also ships a second copy `src/config.py` with different
defaults; it is not on the import path of `ingest.py` / `app.py` and is
modelled separately below. -/

def EMBEDDING_MODEL : String := "text-embedding-3-small"

def MAX_CHUNK_SIZE : Nat := 8000

def MINIMUM_SIMILARITY_THRESHOLD : ℚ := 3 / 10

def MAX_SOURCES : Nat := 5

def SUMMARY_PREVIEW_LENGTH : Nat := 1000

/-- Default of `MAX_CHUNK_SIZE` in the alternate copy `src/config.py`
(not imported by `ingest.py`'s `chunk_text`). -/
def srcConfigMAX_CHUNK_SIZE : Nat := 5000

/-- Modelled from the spec: the known output dimensionality of the
configured embedding model (the source hardcodes 1536, the
dimensionality of `text-embedding-3-small`, in `app.py`). -/
def knownDimensionality (model : String) : Nat :=
  if model = "text-embedding-3-small" then 1536 else 0

/-! ## Chunker (`ingest.py`, `chunk_text`) -/

/-- The paragraph-packing loop of `chunk_text`: greedily pack paragraphs
into `current`, flushing `current` (stripped) into `chunks` whenever
appending the next paragraph plus the 2-character `"\n\n"` separator
would exceed `maxSize`.  Returns the flushed chunks and the final
`current` buffer. -/
def packLoop (maxSize : Nat) :
    List (List Char) → List (List Char) → List Char →
    List (List Char) × List Char
  | [], chunks, current => (chunks, current)
  | p :: ps, chunks, current =>
    if current.length + p.length + 2 > maxSize then
      packLoop maxSize ps
        (if current ≠ [] then chunks ++ [pyStrip current] else chunks) p
    else
      packLoop maxSize ps chunks
        (if current ≠ [] then current ++ ('\n' :: '\n' :: p) else p)

/-- The chunk list produced by the packing phase of `chunk_text`
(paragraph split, greedy packing, final flush of the remaining buffer). -/
def packChunks (text : List Char) (maxSize : Nat) : List (List Char) :=
  let paragraphs := splitParas text []
  let r := packLoop maxSize paragraphs [] []
  if r.2 ≠ [] then r.1 ++ [pyStrip r.2] else r.1

/-- The truncation pass of `chunk_text` applied to one packed chunk: a
chunk still longer than `maxSize` is cut at `maxSize`; if the last
period of the cut lies in the final 20% of the truncation window, cut
just after it instead.  The Python source compares
`last_period > max_chunk_size * 0.8` with a float product; we model the
comparison exactly over ℚ as `5 * lastPeriod > 4 * maxSize`. -/
def truncateChunk (maxSize : Nat) (chunk : List Char) : List Char :=
  if chunk.length > maxSize then
    let truncated := chunk.take maxSize
    match rfindDot truncated with
    | some lastPeriod =>
      if 5 * lastPeriod > 4 * maxSize then truncated.take (lastPeriod + 1)
      else truncated
    | none => truncated
  else chunk

/-- `chunk_text(text, max_chunk_size)` from `ingest.py`: short text is a
single chunk; otherwise paragraphs are packed, oversize packed chunks
are truncated, and an empty packing falls back to `[text[:max_size]]`. -/
def chunk_text (text : List Char) (maxSize : Nat) : List (List Char) :=
  if text.length ≤ maxSize then [text]
  else
    let finalChunks := (packChunks text maxSize).map (truncateChunk maxSize)
    if finalChunks ≠ [] then finalChunks else [text.take maxSize]

/-- `chunk_text(text)` with the `max_chunk_size` argument omitted: the
source substitutes `config.MAX_CHUNK_SIZE`. -/
def chunk_textDefault (text : List Char) : List (List Char) :=
  chunk_text text MAX_CHUNK_SIZE

/-! ## Query path (`app.py`) -/

/-- A row returned by the `match_documents` RPC (or stored in
`site_pages`), as consumed through Python `dict.get` with defaults:
every field may be absent. -/
structure Doc where
  title : Option String
  summary : Option String
  content : Option String
  url : Option String
  similarity : Option ℚ
deriving DecidableEq

/-- Python `doc.get("similarity", 0)`. -/
def Doc.sim (d : Doc) : ℚ := d.similarity.getD 0

/-- `app.py` `get_embedding`: on a successful remote call, the response
vector; on any remote exception, the error is caught, a diagnostic is
shown in the UI, and the zero vector `[0.0] * 1536` is returned.  The
function never raises, hence its result type is a plain vector. -/
def appGetEmbedding (remote : Except String (List ℚ)) : List ℚ :=
  match remote with
  | .ok v => v
  | .error _ => List.replicate 1536 0

/-- The post-RPC part of `retrieve_relevant_documents`: empty store
reply gives `[]`; otherwise filter by `similarity ≥ threshold`; if the
filter removes everything, return the first 2 candidates of the store
reply as-is; otherwise the first `maxResults` filtered candidates. -/
def retrieveFromData (data : List Doc) (maxResults : Nat) (threshold : ℚ) :
    List Doc :=
  if data = [] then []
  else
    let filtered := data.filter (fun d => threshold ≤ d.sim)
    if filtered = [] then data.take 2
    else filtered.take maxResults

/-- `app.py` `retrieve_relevant_documents`.  `embedRemote` is the
outcome of the remote embedding call inside `get_embedding`; `store` is
the `match_documents` RPC, taking the query embedding, the match count
`max_results * 2` and the threshold, and either returning rows or
raising.  A raising RPC is caught and yields `[]`; the enclosing
`try/except` likewise returns `[]`, so the function never raises. -/
def retrieveRelevantDocuments (embedRemote : Except String (List ℚ))
    (store : List ℚ → Nat → ℚ → Except String (List Doc))
    (maxResults : Nat) (threshold : ℚ) : List Doc :=
  let queryEmbedding := appGetEmbedding embedRemote
  match store queryEmbedding (maxResults * 2) threshold with
  | .error _ => []
  | .ok data => retrieveFromData data maxResults threshold

/-- Python `int(x)` for a nonnegative rational (truncation toward zero
coincides with the floor on the `[0,1]`-ranged similarities). -/
def pyInt (q : ℚ) : Int :=
  if 0 ≤ q then ⌊q⌋ else -⌊-q⌋

/-- One `Document i (Relevance: p%): ...` block of the generation
context, from `generate_response`. -/
def contextPart (i : Nat) (d : Doc) : String :=
  "Document " ++ toString i ++ " (Relevance: " ++
    toString (pyInt (d.sim * 100)) ++ "%):\n" ++
  "Title: " ++ d.title.getD "Untitled" ++ "\n" ++
  "Summary: " ++ d.summary.getD "No summary" ++ "\n" ++
  "Content: " ++ d.content.getD "" ++ "\n---"

/-- The joined context string built by `generate_response`
(`"\n\n".join(context_parts)`, documents enumerated from 1). -/
def buildContext (docs : List Doc) : String :=
  String.intercalate "\n\n"
    ((List.enumFrom 1 docs).map (fun p => contextPart p.1 p.2))

/-- The system prompt of `generate_response` after
`.format(context=context)` substitutes the built context string. -/
def systemPrompt (context : String) : String :=
  "You are a helpful AI assistant that answers questions based on the provided context documents.\n\nGuidelines:\n- Answer based ONLY on the information in the context documents\n- If the context doesn't contain enough information, say so\n- Cite which document(s) you're using when relevant\n- Be concise and actionable\n- If asked about something not in the context, politely decline\n\nContext Documents:\n"
    ++ context

/-- The fixed no-context reply of `generate_response`. -/
def noContextMessage : String :=
  "I couldn't find relevant information in the knowledge base to answer your question."

/-- The user-facing error string `generate_response` returns when the
remote completion call raises, classified by substring matching on the
lowercased exception text (auth / quota / rate limit / model-not-found
/ generic). -/
def generationErrorReply (llmModel msg : String) : String :=
  let m := (pyLower msg)
  if containsSub "invalid_api_key" m then
    "❌ **Error:** Invalid OpenAI API key. Get a new key from https://platform.openai.com/api-keys"
  else if containsSub "insufficient_quota" m || containsSub "billing" m then
    "❌ **Error:** OpenAI account has insufficient quota. Add a payment method at https://platform.openai.com/account/billing"
  else if containsSub "rate_limit" m then
    "⚠️ **Error:** OpenAI rate limit exceeded. Wait a few minutes and try again."
  else if containsSub "model" m && containsSub "not found" m then
    "❌ **Error:** Model '" ++ llmModel ++ "' not found. Check config.py for valid models."
  else
    "❌ **Error generating response:** " ++ msg

/-- `app.py` `generate_response`, returning the answer string together
with the number of remote completion calls issued.  `complete` maps the
system prompt and the user query (the two messages sent) to the outcome
of the remote chat-completion call.  Empty
context short-circuits to the fixed message with zero calls; otherwise
exactly one call is made and any exception is converted to an error
reply. -/
def generateResponse (llmModel : String)
    (complete : String → String → Except String String)
    (query : String) (contextDocuments : List Doc) : String × Nat :=
  if contextDocuments = [] then (noContextMessage, 0)
  else
    match complete (systemPrompt (buildContext contextDocuments)) query with
    | .ok text => (text, 1)
    | .error e => (generationErrorReply llmModel e, 1)

/-! ## Ingestion path (`ingest.py`) -/

/-- Python `s.strip()` on a string. -/
def pyStripStr (s : String) : String := ⟨pyStrip s.toList⟩

/-- The error classes `ingest.py`'s `get_embedding` distinguishes when
it re-raises a remote failure as a `ValueError`. -/
inductive EmbedErrorClass where
  | auth
  | quota
  | rateLimited
  | modelNotFound
  | unknown
deriving DecidableEq

/-- The classification in `ingest.py` `get_embedding`'s `except` block:
substring matching on the lowercased exception text. -/
def classifyEmbedError (msg : String) : EmbedErrorClass :=
  let m := (pyLower msg)
  if containsSub "invalid_api_key" m || containsSub "incorrect api key" m then
    .auth
  else if containsSub "insufficient_quota" m || containsSub "billing" m then
    .quota
  else if containsSub "rate_limit" m then
    .rateLimited
  else if containsSub "model" m && containsSub "not found" m then
    .modelNotFound
  else
    .unknown

/-- The `ValueError`s `ingest.py`'s `get_embedding` can raise: the
uninitialized-client guard, or a classified remote failure. -/
inductive IngestEmbedError where
  | notInitialized
  | remote (c : EmbedErrorClass)
deriving DecidableEq

/-- `ingest.py` `get_embedding`: a successful remote call returns the
vector; any remote exception is re-raised as a classified `ValueError`
(the `.error` branch) — the ingestion path never substitutes a zero
vector. -/
def ingestGetEmbedding (clientInitialized : Bool)
    (remote : Except String (List ℚ)) : Except IngestEmbedError (List ℚ) :=
  if clientInitialized = false then .error .notInitialized
  else
    match remote with
    | .ok v => .ok v
    | .error e => .error (.remote (classifyEmbedError e))

/-- `ingest.py` `get_summary`: an uninitialized client or any exception
of the remote completion call (including a `None` message content,
whose `.strip()` raises inside the `try`) degrades to a sentinel string;
the function never raises.  `remote` maps the preview actually sent to
the outcome of the call, `.ok` carrying the optional message content. -/
def getSummary (clientInitialized : Bool)
    (remote : List Char → Except String (Option String))
    (text : List Char) : String :=
  if clientInitialized = false then
    "Content summary unavailable (OpenAI client not initialized)"
  else
    let preview :=
      if text.length > SUMMARY_PREVIEW_LENGTH then
        text.take SUMMARY_PREVIEW_LENGTH ++ "...".toList
      else text
    match remote preview with
    | .ok (some content) => pyStripStr content
    | .ok none => "Content summary unavailable"
    | .error _ => "Content summary unavailable"

/-- The `ValueError`s that can propagate out of the per-chunk body of
`process_file` (and abort the remaining chunks of the file): a
classified embedding failure, or a non-duplicate insert failure. -/
inductive ChunkFatal where
  | embed (e : IngestEmbedError)
  | insertPermissionDenied
  | insertOther (msg : String)
deriving DecidableEq

/-- The outcomes of the remote calls made while processing one chunk:
the embedding call, the summary call, and the database insert. -/
structure ChunkOutcome where
  embedRemote : Except String (List ℚ)
  summaryRemote : List Char → Except String (Option String)
  insertResult : Except String Unit

/-- The body of `process_file`'s per-chunk loop: embed and summarize
(their `asyncio.gather` join propagates the embedding `ValueError`, the
summary never raises), then insert.  A duplicate-key / unique-constraint
insert failure is counted as success without an insert; other insert
failures are re-raised as `ValueError`s.  On success returns
`(summary, counted-as-successful, row-actually-inserted)`. -/
def processChunk (clientInitialized : Bool) (chunk : List Char)
    (o : ChunkOutcome) : Except ChunkFatal (String × Bool × Bool) :=
  match ingestGetEmbedding clientInitialized o.embedRemote with
  | .error e => .error (.embed e)
  | .ok _embedding =>
    let summary := getSummary clientInitialized o.summaryRemote chunk
    match o.insertResult with
    | .ok _ => .ok (summary, true, true)
    | .error msg =>
      let m := (pyLower msg)
      if containsSub "duplicate key" m || containsSub "unique constraint" m then
        .ok (summary, true, false)
      else if containsSub "permission denied" m then
        .error .insertPermissionDenied
      else
        .error (.insertOther msg)

/-- `process_file`'s loop over the chunks of one document, carrying the
chunk index and the `successful` and inserted-row counters.  A
`ValueError` from a chunk (`except ValueError: raise`) stops the loop
immediately; every other modelled outcome continues with the next
chunk.  (The loop's generic `except Exception: continue` handler is
unreachable for the modelled remote-call outcomes, which all surface as
`ValueError`s.) -/
def processChunksLoop (clientInitialized : Bool)
    (outcomes : Nat → ChunkOutcome) :
    List (List Char) → Nat → Nat → Nat → Option ChunkFatal × Nat × Nat
  | [], _idx, successful, inserts => (none, successful, inserts)
  | chunk :: rest, idx, successful, inserts =>
    match processChunk clientInitialized chunk (outcomes idx) with
    | .error e => (some e, successful, inserts)
    | .ok (_summary, counted, inserted) =>
      processChunksLoop clientInitialized outcomes rest (idx + 1)
        (successful + if counted then 1 else 0)
        (inserts + if inserted then 1 else 0)

/-- The per-file inputs of `process_file`: the file's text, the outcome
of the `select url eq url` existence query (`.ok` carrying the returned
rows' urls), and the remote-call outcomes for each chunk index. -/
structure FileOracles where
  content : List Char
  existing : Except String (List String)
  chunkOutcome : Nat → ChunkOutcome

/-- `ingest.py` `process_file`, returning `(result, rows inserted)`.
Empty (after strip) content is skipped as failure.  A failing existence
query raises a classified `ValueError`, which — like every `ValueError`
from the chunk loop — is caught by the function's outer
`except Exception` handler and turned into a `False` return; no
exception escapes `process_file`.  A document whose identity is already
present returns `True` with zero inserts.  Otherwise the file is
chunked with the configured `MAX_CHUNK_SIZE` and the chunks processed
in order; the result is `successful > 0`. -/
def processFile (clientInitialized : Bool) (f : FileOracles) : Bool × Nat :=
  if pyStrip f.content = [] then (false, 0)
  else
    match f.existing with
    | .error _ => (false, 0)
    | .ok rows =>
      if rows ≠ [] then (true, 0)
      else
        let chunks := chunk_text f.content MAX_CHUNK_SIZE
        match processChunksLoop clientInitialized f.chunkOutcome chunks 0 0 0 with
        | (some _, _, inserts) => (false, inserts)
        | (none, successful, inserts) => (decide (0 < successful), inserts)

/-- The ingestion run (`main` plus the `__main__` epilogue) over a list
of files, returning `(exit code, successful files, failed files)`.
`process_file` never raises, `main`'s database-stats block catches its
own exceptions, so `asyncio.run(main())` returns normally and the
process exits with code 0 regardless of per-file failures. -/
def runIngestion (clientInitialized : Bool) (files : List FileOracles) :
    Nat × Nat × Nat :=
  let results := files.map (fun f => (processFile clientInitialized f).1)
  (0, results.countP id, results.countP (fun b => !b))

/-! ## Concrete fixtures for witnesses and counterexamples -/

/-- A store candidate of similarity `0.1`. -/
def docA : Doc := ⟨some "A", none, none, none, some (1 / 10)⟩

/-- A store candidate of similarity `0.15`. -/
def docB : Doc := ⟨some "B", none, none, none, some (15 / 100)⟩

/-- A store candidate of similarity `0.05`. -/
def docC : Doc := ⟨some "C", none, none, none, some (5 / 100)⟩

/-- A store candidate of similarity `0.9`. -/
def docHigh : Doc := ⟨some "H", none, none, none, some (9 / 10)⟩

/-- A chunk whose insert collides on the unique constraint. -/
def dupChunkOutcome : ChunkOutcome :=
  ⟨.ok [1], fun _ => .ok (some "s"),
    .error "duplicate key value violates unique constraint"⟩

/-- A document whose identity is already present in the store. -/
def existingFile : FileOracles :=
  ⟨"hello".toList, .ok ["file://a.md"], fun _ => dupChunkOutcome⟩

/-- A document whose embedding call fails with an auth error. -/
def authFailFile : FileOracles :=
  ⟨"hello world".toList, .ok [],
    fun _ => ⟨.error "Error code: 401 - invalid_api_key",
      fun _ => .ok (some "s"), .ok ()⟩⟩

/-- A document that ingests cleanly. -/
def okFile : FileOracles :=
  ⟨"hello world".toList, .ok [],
    fun _ => ⟨.ok [1], fun _ => .ok (some "s"), .ok ()⟩⟩

/-! ## Chunker lemmas -/

theorem truncateChunk_length_le (maxSize : Nat) (chunk : List Char) :
    (truncateChunk maxSize chunk).length ≤ maxSize := by
  unfold truncateChunk
  by_cases h : chunk.length > maxSize
  · simp only [h, if_true]
    cases hfind : rfindDot (chunk.take maxSize) with
    | none =>
      simp only [hfind, List.length_take]
      omega
    | some lastPeriod =>
      by_cases hp : 5 * lastPeriod > 4 * maxSize
      · simp only [hfind, hp, if_true, List.length_take]
        omega
      · simp only [hfind, hp, if_false, List.length_take]
        omega
  · rw [if_neg h]
    omega

theorem chunk_text_ne_nil (text : List Char) (maxSize : Nat) :
    chunk_text text maxSize ≠ [] := by
  unfold chunk_text
  by_cases h : text.length ≤ maxSize
  · simp [h]
  · simp only [h, if_false]
    by_cases hfc : (packChunks text maxSize).map (truncateChunk maxSize) ≠ []
    · simp [hfc]
    · simp [hfc]

theorem chunk_text_length_le (text : List Char) (maxSize : Nat)
    (c : List Char) (hc : c ∈ chunk_text text maxSize) :
    c.length ≤ maxSize := by
  unfold chunk_text at hc
  by_cases h : text.length ≤ maxSize
  · simp only [h, if_true, List.mem_singleton] at hc
    exact hc ▸ h
  · simp only [h, if_false] at hc
    by_cases hfc : (packChunks text maxSize).map (truncateChunk maxSize) ≠ []
    · rw [if_pos hfc] at hc
      rcases List.mem_map.mp hc with ⟨chunk, _, rfl⟩
      exact truncateChunk_length_le maxSize chunk
    · rw [if_neg hfc] at hc
      simp only [List.mem_singleton] at hc
      subst hc
      simp only [List.length_take]
      omega

/-! ## The claims -/

/-- C1: for every input text and every `max_size > 0`, every chunk in
the list returned by `chunk_text(text, max_size)` has length at most
`max_size`; an oversized single paragraph is truncated (at `max_size`,
or at the last period when it lies within the final 20% of the window)
so the bound holds for every returned chunk. -/
theorem chunking_size_bound (text : List Char) (maxSize : Nat)
    (_hpos : 0 < maxSize) (c : List Char)
    (hc : c ∈ chunk_text text maxSize) : c.length ≤ maxSize :=
  chunk_text_length_le text maxSize c hc

/-- Witness for `chunking_size_bound` at a concrete text and bound. -/
theorem chunking_size_bound_witness :
    0 < 5 ∧ "aaaa".toList ∈ chunk_text "aaaa\n\nbbbb\n\ncccc".toList 5 ∧
    ("aaaa".toList).length ≤ 5 :=
  ⟨by decide, by decide,
    chunking_size_bound "aaaa\n\nbbbb\n\ncccc".toList 5 (by decide)
      "aaaa".toList (by decide)⟩

/-- C10: for every text (empty and whitespace-only included) and every
`max_size > 0`, `chunk_text` returns a non-empty list; when paragraph
packing yields no chunks, the final fallback returns the single chunk
`text[:max_size]`. -/
theorem chunking_nonempty (text : List Char) (maxSize : Nat)
    (_hpos : 0 < maxSize) :
    chunk_text text maxSize ≠ [] ∧
    (maxSize < text.length → packChunks text maxSize = [] →
      chunk_text text maxSize = [text.take maxSize]) := by
  refine ⟨chunk_text_ne_nil text maxSize, fun hlt hpack => ?_⟩
  unfold chunk_text
  rw [if_neg (by omega)]
  simp [hpack]

/-- Witness for `chunking_nonempty`: six blank lines with `max_size = 3`
reach the fallback. -/
theorem chunking_nonempty_witness :
    chunk_text (List.replicate 6 '\n') 3 ≠ [] ∧
    (3 < (List.replicate 6 '\n').length →
      packChunks (List.replicate 6 '\n') 3 = [] →
      chunk_text (List.replicate 6 '\n') 3 = [(List.replicate 6 '\n').take 3]) :=
  chunking_nonempty (List.replicate 6 '\n') 3 (by decide)

/-- C9 counterexample: the default maximum chunk size used by
`chunk_text` when no argument is supplied is not 5000 — a 6000-character
text stays a single untruncated chunk under the default. -/
theorem default_chunk_size_counterexample :
    MAX_CHUNK_SIZE ≠ 5000 ∧
    chunk_textDefault (List.replicate 6000 'a') = [List.replicate 6000 'a'] := by
  constructor
  · decide
  · unfold chunk_textDefault chunk_text
    rw [if_pos (by norm_num [MAX_CHUNK_SIZE])]

/-- C9 (amended): the configured default for the maximum chunk size used
by `chunk_text` when no `max_chunk_size` argument is supplied and no
environment override is set is 8000 (from the root `config.py` that
`ingest.py` imports); the alternate `src/config.py` copy, which is not
on the import path, defaults to 5000. -/
theorem default_chunk_size_amended :
    MAX_CHUNK_SIZE = 8000 ∧ srcConfigMAX_CHUNK_SIZE = 5000 ∧
    ∀ text : List Char, chunk_textDefault text = chunk_text text 8000 :=
  ⟨rfl, rfl, fun _ => rfl⟩

/-- C6: for every query, `generate_response` with an empty context list
returns the fixed could-not-find-relevant-information message and issues
no remote completion call (the call counter stays 0). -/
theorem empty_context_generation (llmModel query : String)
    (complete : String → String → Except String String) :
    generateResponse llmModel complete query [] = (noContextMessage, 0) :=
  rfl

/-- C8: in the query path, for every remote embedding error,
`get_embedding` does not raise (it is total, returning a plain vector)
and returns a zero vector whose length is the configured embedding
model's known dimensionality. -/
theorem query_embedding_error_zero_vector (e : String) :
    appGetEmbedding (.error e) =
      List.replicate (knownDimensionality EMBEDDING_MODEL) 0 ∧
    (appGetEmbedding (.error e)).length =
      knownDimensionality EMBEDDING_MODEL := by
  constructor
  · rfl
  · calc (appGetEmbedding (.error e)).length
        = (List.replicate 1536 (0 : ℚ)).length := rfl
      _ = 1536 := List.length_replicate 1536 0
      _ = knownDimensionality EMBEDDING_MODEL := rfl

/-- C7: `get_summary` never raises — any failure of the remote
completion call returns the fixed sentinel string instead of an
exception — and the summary outcome never changes whether a chunk's
processing succeeds or aborts: swapping the summary oracle only swaps
the summary string in `processChunk`'s result. -/
theorem summary_failure_sentinel :
    (∀ (e : String) (text : List Char),
      getSummary true (fun _ => .error e) text = "Content summary unavailable") ∧
    (∀ (ci : Bool) (chunk : List Char) (o : ChunkOutcome)
        (g : List Char → Except String (Option String)),
      processChunk ci chunk { o with summaryRemote := g } =
        match processChunk ci chunk o with
        | .ok (_, counted, inserted) =>
            .ok (getSummary ci g chunk, counted, inserted)
        | .error err => .error err) := by
  constructor
  · intro e text
    rfl
  · intro ci chunk o g
    obtain ⟨er, sr, ir⟩ := o
    unfold processChunk
    dsimp only
    cases ingestGetEmbedding ci er with
    | error e => rfl
    | ok v =>
      cases ir with
      | ok u => rfl
      | error msg =>
        dsimp only
        by_cases hdup : (containsSub "duplicate key" (pyLower msg) ||
            containsSub "unique constraint" (pyLower msg)) = true
        · simp [hdup]
        · simp only [Bool.not_eq_true] at hdup
          by_cases hperm : containsSub "permission denied" (pyLower msg) = true
          · simp [hdup, hperm]
          · simp only [Bool.not_eq_true] at hperm
            simp [hdup, hperm]

/-- C2: ingestion is idempotent — when the existence query finds a row
with the document's url, `process_file` returns `True` with zero
inserts; and a duplicate-key / unique-constraint violation on an
individual chunk insert is counted as success (no raise, chunk counted,
no row inserted). -/
theorem ingestion_idempotent :
    (∀ (ci : Bool) (f : FileOracles) (rows : List String),
      f.existing = .ok rows → rows ≠ [] → pyStrip f.content ≠ [] →
      processFile ci f = (true, 0)) ∧
    (∀ (ci : Bool) (chunk : List Char) (o : ChunkOutcome)
        (msg : String) (v : List ℚ),
      ingestGetEmbedding ci o.embedRemote = .ok v →
      o.insertResult = .error msg →
      (containsSub "duplicate key" (pyLower msg) ||
        containsSub "unique constraint" (pyLower msg)) = true →
      processChunk ci chunk o =
        .ok (getSummary ci o.summaryRemote chunk, true, false)) := by
  constructor
  · intro ci f rows hex hrows hcontent
    unfold processFile
    rw [if_neg hcontent, hex]
    simp [hrows]
  · intro ci chunk o msg v hemb hins hdup
    unfold processChunk
    rw [hemb, hins]
    simp [hdup]

/-- Witness for `ingestion_idempotent` at a concrete already-ingested
file and a concrete duplicate-key insert collision. -/
theorem ingestion_idempotent_witness :
    processFile true existingFile = (true, 0) ∧
    processChunk true "c".toList dupChunkOutcome =
      .ok (getSummary true dupChunkOutcome.summaryRemote "c".toList,
        true, false) :=
  ⟨ingestion_idempotent.1 true existingFile ["file://a.md"] rfl
      (by decide) (by decide),
    ingestion_idempotent.2 true "c".toList dupChunkOutcome
      "duplicate key value violates unique constraint" [1] rfl rfl
      (by decide)⟩

/-- C3 counterexample: a store reply of similarities
`[0.1, 0.15, 0.05]` (in that order) with threshold `0.3` makes
`retrieve_relevant_documents` return the first two candidates in store
order, `[0.1, 0.15]` — not the top 2 by similarity `[0.15, 0.1]` the
claim states. -/
theorem fallback_order_counterexample :
    retrieveRelevantDocuments (.ok [1])
        (fun _ _ _ => .ok [docA, docB, docC]) 5 (3 / 10)
      = [docA, docB] ∧
    docA.sim = 1 / 10 ∧ docB.sim = 15 / 100 ∧ docC.sim = 5 / 100 ∧
    docA.sim < 3 / 10 ∧ docB.sim < 3 / 10 ∧ docC.sim < 3 / 10 ∧
    ¬ [docA, docB] = [docB, docA] := by
  refine ⟨?_, rfl, rfl, rfl, by norm_num [Doc.sim, docA],
    by norm_num [Doc.sim, docB], by norm_num [Doc.sim, docC],
    by simp [docA, docB]⟩
  show retrieveFromData [docA, docB, docC] 5 (3 / 10) = [docA, docB]
  unfold retrieveFromData
  norm_num [Doc.sim, docA, docB, docC, List.filter]
  intro h
  exact absurd h (List.cons_ne_nil _ _)

/-- C3 (amended): when at least one candidate exists and none reaches
the threshold, `retrieve_relevant_documents` returns the first 2
candidates in the order the store returned them; provided the store
reply is sorted by nonincreasing similarity (the `match_documents`
contract), these are the top 2 by similarity ordered most similar
first — never zero and never more than 2. -/
theorem fallback_retrieval_amended (embedRemote : Except String (List ℚ))
    (data : List Doc) (maxResults : Nat) (threshold : ℚ)
    (hne : data ≠ [])
    (hbelow : ∀ d ∈ data, d.sim < threshold)
    (hsorted : List.Sorted (fun a b : Doc => b.sim ≤ a.sim) data) :
    retrieveRelevantDocuments embedRemote (fun _ _ _ => .ok data)
        maxResults threshold = data.take 2 ∧
    data.take 2 ≠ [] ∧ (data.take 2).length ≤ 2 ∧
    List.Sorted (fun a b : Doc => b.sim ≤ a.sim) (data.take 2) ∧
    ∀ x ∈ data.drop 2, ∀ y ∈ data.take 2, x.sim ≤ y.sim := by
  have hfilter : data.filter (fun d => threshold ≤ d.sim) = [] := by
    rw [List.filter_eq_nil_iff]
    intro d hd
    simpa using not_le.mpr (hbelow d hd)
  refine ⟨?_, ?_, ?_, ?_, ?_⟩
  · show retrieveFromData data maxResults threshold = data.take 2
    unfold retrieveFromData
    rw [if_neg hne]
    simp [hfilter]
  · cases data with
    | nil => exact absurd rfl hne
    | cons a l => simp
  · exact List.length_take_le 2 data
  · exact hsorted.sublist (List.take_sublist 2 data)
  · intro x hx y hy
    have h := hsorted
    rw [← List.take_append_drop 2 data] at h
    rcases List.pairwise_append.mp h with ⟨-, -, hcross⟩
    exact hcross y hy x hx

/-- Witness for `fallback_retrieval_amended` on the sorted store reply
`[0.15, 0.1, 0.05]` with threshold `0.3`. -/
theorem fallback_retrieval_amended_witness :
    retrieveRelevantDocuments (.ok [])
        (fun _ _ _ => .ok [docB, docA, docC]) 5 (3 / 10)
      = ([docB, docA, docC] : List Doc).take 2 ∧
    ([docB, docA, docC] : List Doc).take 2 ≠ [] ∧
    (([docB, docA, docC] : List Doc).take 2).length ≤ 2 ∧
    List.Sorted (fun a b : Doc => b.sim ≤ a.sim)
      (([docB, docA, docC] : List Doc).take 2) ∧
    ∀ x ∈ ([docB, docA, docC] : List Doc).drop 2,
      ∀ y ∈ ([docB, docA, docC] : List Doc).take 2, x.sim ≤ y.sim :=
  fallback_retrieval_amended (.ok []) [docB, docA, docC] 5 (3 / 10)
    (by simp)
    (by norm_num [Doc.sim, docA, docB, docC])
    (by norm_num [List.sorted_cons, Doc.sim, docA, docB, docC])

/-- C4 counterexample: the query embedding fails (auth error), yet
`retrieve_relevant_documents` does not return an empty result set — it
queries the store with the substituted zero vector and returns the
store's candidate. -/
theorem retrieval_embed_failure_counterexample :
    retrieveRelevantDocuments (.error "Error code: 401 - invalid_api_key")
        (fun _ _ _ => .ok [docHigh]) 5 (3 / 10) = [docHigh] ∧
    [docHigh] ≠ ([] : List Doc) := by
  constructor
  · show retrieveFromData [docHigh] 5 (3 / 10) = [docHigh]
    unfold retrieveFromData
    norm_num [Doc.sim, docHigh, List.filter]
  · exact List.cons_ne_nil _ _

/-- C4 (amended): on embedding failure `retrieve_relevant_documents`
does not return empty; it proceeds with the zero vector `[0.0] * 1536`
as the query and returns whatever the normal filtering pipeline yields
on the store's reply.  The never-raises half of the claim holds: the
function is total, and any store error yields the empty result set. -/
theorem retrieval_never_raises_amended (e : String)
    (store : List ℚ → Nat → ℚ → Except String (List Doc))
    (maxResults : Nat) (threshold : ℚ) :
    (retrieveRelevantDocuments (.error e) store maxResults threshold =
      match store (List.replicate 1536 0) (maxResults * 2) threshold with
      | .error _ => []
      | .ok data => retrieveFromData data maxResults threshold) ∧
    (∀ (embedRemote : Except String (List ℚ)) (msg : String),
      retrieveRelevantDocuments embedRemote (fun _ _ _ => .error msg)
        maxResults threshold = []) := by
  constructor
  · rfl
  · intro embedRemote msg
    rfl

/-- C5 counterexample: a classified auth failure of the embedding call
during ingestion is not fatal — `process_file` swallows the raised
`ValueError` and reports failure, the run carries on with the next file
(which succeeds), and the process exit code is 0, not non-zero. -/
theorem ingest_embed_fatality_counterexample :
    ingestGetEmbedding true (.error "Error code: 401 - invalid_api_key")
      = .error (.remote .auth) ∧
    processFile true authFailFile = (false, 0) ∧
    runIngestion true [authFailFile, okFile] = (0, 1, 1) :=
  ⟨rfl, by decide, by decide⟩

/-- C5 (amended): in the ingestion path every remote embedding error is
raised as a classified error — never a returned zero vector — and the
raise aborts the remaining chunks of that file, but it is not fatal to
the run: `process_file` catches it and returns `False` with no inserts,
and the ingestion run always exits with code 0. -/
theorem ingest_embed_error_classified_amended (e : String) (f : FileOracles)
    (hcontent : pyStrip f.content ≠ [])
    (hex : f.existing = .ok [])
    (hembed : ∀ i, (f.chunkOutcome i).embedRemote = .error e) :
    ingestGetEmbedding true (.error e)
      = .error (.remote (classifyEmbedError e)) ∧
    (¬ ∃ v, ingestGetEmbedding true (.error e) = .ok v) ∧
    processFile true f = (false, 0) ∧
    (∀ files : List FileOracles, (runIngestion true files).1 = 0) := by
  refine ⟨rfl, ?_, ?_, fun files => rfl⟩
  · rintro ⟨v, hv⟩
    simp [ingestGetEmbedding] at hv
  · have h0 : processChunk true
        ((chunk_text f.content MAX_CHUNK_SIZE).headI) (f.chunkOutcome 0)
        = .error (.embed (.remote (classifyEmbedError e))) := by
      unfold processChunk
      rw [hembed 0]
      rfl
    unfold processFile
    rw [if_neg hcontent, hex]
    dsimp only
    rw [if_neg (by simp)]
    obtain ⟨c, rest, hchunks⟩ :=
      List.exists_cons_of_ne_nil (chunk_text_ne_nil f.content MAX_CHUNK_SIZE)
    rw [hchunks]
    rw [hchunks] at h0
    simp only [List.headI] at h0
    simp [processChunksLoop, h0]

/-- Witness for `ingest_embed_error_classified_amended` at the concrete
auth-failing file. -/
theorem ingest_embed_error_classified_amended_witness :
    ingestGetEmbedding true (.error "Error code: 401 - invalid_api_key")
      = .error (.remote
          (classifyEmbedError "Error code: 401 - invalid_api_key")) ∧
    (¬ ∃ v, ingestGetEmbedding true
        (.error "Error code: 401 - invalid_api_key") = .ok v) ∧
    processFile true authFailFile = (false, 0) ∧
    (∀ files : List FileOracles, (runIngestion true files).1 = 0) :=
  ingest_embed_error_classified_amended "Error code: 401 - invalid_api_key"
    authFailFile (by decide) rfl (fun _ => rfl)

end RagKit
